import Mathlib

/-!
Verification of the package-build orchestration core (`src/actions/packaging.rs`):
group-list reading, package-list expansion, the fetch and build orchestrators,
output-directory cleanup and duration formatting.

The Rust code is shallowly embedded: file access, configuration loading, the
container subsystem and the process environment are modelled as explicit inputs
(a `Sys` record of oracles), and the side effects of a run are recorded as an
explicit trace of `Event`s. Rust's `str::starts_with` and `str::trim` are
modelled structurally over the character list of a `String` so that all
definitions evaluate inside the kernel.
-/

deriving instance DecidableEq for Except

namespace Ciel

/-- Model of Rust `str::starts_with`: `pre` is a prefix of `s`. -/
def str_starts_with (s pre : String) : Bool :=
  pre.data.isPrefixOf s.data

/-- Model of Rust `str::trim` on the character list: drop whitespace from both ends. -/
def str_trim_aux (s : List Char) : List Char :=
  ((s.dropWhile Char.isWhitespace).reverse.dropWhile Char.isWhitespace).reverse

/-- Model of Rust `str::trim`. -/
def str_trim (s : String) : String :=
  String.mk (str_trim_aux s.data)

/-- Zero-padded two-digit field, the model of Rust `format!("{:02}", n)`. -/
def pad2 (n : Int) : String :=
  let s := toString n
  if s.length < 2 then "0" ++ s else s

/-- Model of `format_duration` (packaging.rs lines 19-28): the seconds count of the
duration is formatted as `HH:MM:SS` with truncating (Rust `i64`) division. -/
def format_duration (seconds : Int) : String :=
  pad2 (seconds.tdiv 3600) ++ ":" ++ pad2 ((seconds.tdiv 60).tmod 60) ++ ":" ++
    pad2 (seconds.tmod 60)

/-- File system oracle: a path maps to the list of lines of the file, or `none`
when opening/reading the file fails (an I/O error). -/
abbrev FS := String → Option (List String)

/-- Error kinds of `read_package_list`: the depth-cap error (packaging.rs line 31)
or a file I/O error (lines 36 and 40). -/
inductive RplError where
  | depthExceeded
  | ioError
deriving DecidableEq, Repr

/-- Model of the line loop of `read_package_list` (packaging.rs lines 39-55),
parameterized by the resolver used for nested group references: a line whose raw
first character is `#` is skipped; every other line is trimmed; a trimmed value
with the `groups/` marker is resolved against the tree root (its error, I/O or
depth overflow, propagating as the loop's result, first failure from the left
winning); any other trimmed value, the empty string included, is kept as a
literal token in line order. -/
def read_package_list_lines (resolve : String → Except RplError (List String))
    (lines : List String) : Except RplError (List String) :=
  lines.foldr
    (fun line acc =>
      if str_starts_with line "#" then
        acc
      else
        let trimmed := str_trim line
        if str_starts_with trimmed "groups/" then
          match resolve ("./TREE/" ++ trimmed) with
          | .error e => .error e
          | .ok nested =>
            match acc with
            | .error e => .error e
            | .ok more => .ok (nested ++ more)
        else
          match acc with
          | .error e => .error e
          | .ok more => .ok (trimmed :: more))
    (.ok [])

/-- Model of `read_package_list` (packaging.rs lines 30-58) with the recursion
depth counter of the source replaced by the remaining budget `33 - depth`: a
zero budget is exactly the source's `depth > 32` check (rejected before any file
access), and the nested resolution at `depth + 1` becomes resolution at budget
`b`. `read_package_list` below converts back to the source's signature. -/
def read_package_list_budget (fs : FS) : Nat → String → Except RplError (List String)
  | 0, _ => .error .depthExceeded
  | b + 1, filename =>
    match fs filename with
    | none => .error .ioError
    | some lines => read_package_list_lines (read_package_list_budget fs b) lines

/-- Model of `read_package_list` at the source's signature: called at `depth`,
the remaining nesting budget is `33 - depth`, so `depth > 32` fails with the
depth-exceeded error before the file is opened. -/
def read_package_list (fs : FS) (filename : String) (depth : Nat) :
    Except RplError (List String) :=
  read_package_list_budget fs (33 - depth) filename

/-- Workspace configuration, the fields of the external provider that this core
reads (`local_sources`, `local_repo`, `sep_mount`). -/
structure Config where
  local_sources : Bool
  local_repo : Bool
  sep_mount : Bool
deriving DecidableEq, Repr

/-- Observable side effects of a run, in order of occurrence: logging, the
terminal-title escape, container operations (with the exit status the run
observed), repository refresh, the offline environment toggle, and the final
success summary. -/
inductive Event where
  | infoOffline1
  | infoOffline2
  | warnFetchNoLocalSources
  | infoReadGroup (count : Nat) (package : String)
  | warnGroup (package : String)
  | termTitle (position total : Nat) (package : String)
  | infoBuilding (position total : Nat) (package : String)
  | infoRefreshRepo
  | errorUpdateFailed
  | errorBuildFailed (status : Int)
  | mountFs (inst : String)
  | rollbackContainer (inst : String)
  | runCmd (inst : String) (cmd : List String) (status : Int)
  | initRepo (root inst : String)
  | setEnvOffline
  | summary (total : Nat)
deriving DecidableEq, Repr

/-- Modelled from the spec: the fixed, embedded OS-update script text
(`super::UPDATE_SCRIPT`, defined outside this file); its content is opaque to
this core, which only passes it to the shell invocation. -/
def UPDATE_SCRIPT : String := "UPDATE_SCRIPT"

/-- The fetch command built by `package_fetch` (packaging.rs lines 100-101). -/
def fetchCmd (packages : List String) : List String :=
  "/bin/acbs-build" :: "-g" :: "--" :: packages

/-- The OS-update command of the build loop (packaging.rs line 150). -/
def updateCmd : List String :=
  ["/bin/bash", "-ec", UPDATE_SCRIPT]

/-- The per-package build command (packaging.rs line 155). -/
def buildOneCmd (package : String) : List String :=
  ["/bin/acbs-build", "--", package]

/-- The whole-list build command of remote-repo mode (packaging.rs lines 131-132). -/
def buildAllCmd (packages : List String) : List String :=
  "/bin/acbs-build" :: "--" :: packages

/-- Model of `expand_package_list` (packaging.rs lines 61-81) together with its
log output: a token without the `groups/` marker is kept unchanged; a group
reference is resolved at depth 0, its tokens spliced in on success (with an info
log of the count), and dropped with a warning on failure. -/
def expand_package_list_ev (fs : FS) : List String → List String × List Event
  | [] => ([], [])
  | package :: rest =>
    if ¬ str_starts_with package "groups/" then
      let (ts, evs) := expand_package_list_ev fs rest
      (package :: ts, evs)
    else
      match read_package_list fs ("./TREE/" ++ package) 0 with
      | .ok list =>
        let (ts, evs) := expand_package_list_ev fs rest
        (list ++ ts, Event.infoReadGroup list.length package :: evs)
      | .error _ =>
        let (ts, evs) := expand_package_list_ev fs rest
        (ts, Event.warnGroup package :: evs)

/-- The token list produced by `expand_package_list` (its return value in the
source; the log events are dropped). -/
def expand_package_list (fs : FS) (packages : List String) : List String :=
  (expand_package_list_ev fs packages).1

/-- The world an orchestrator run interacts with: the configuration provider,
presence of the `CIEL_OFFLINE` environment variable, the exit status
`run_in_container` reports for a command, `get_output_directory`, the current
working directory, and the file system holding the group files. -/
structure Sys where
  config : Option Config
  ciel_offline : Bool
  exec : String → List String → Int
  output_dir : Bool → String
  current_dir : String
  groups : FS

/-- Model of `package_fetch` (packaging.rs lines 84-105): configuration must
load; warn when local sources caching is off; mount, rollback, then run the
fetch command over the raw token list and return its exit status verbatim. -/
def package_fetch (sys : Sys) (inst : String) (packages : List String) :
    Except String Int × List Event :=
  match sys.config with
  | none => (.error "Please configure this workspace first!", [])
  | some conf =>
    let warns := if ¬ conf.local_sources then [Event.warnFetchNoLocalSources] else []
    let status := sys.exec inst (fetchCmd packages)
    (.ok status,
      warns ++ [Event.mountFs inst, Event.rollbackContainer inst,
        Event.runCmd inst (fetchCmd packages) status])

/-- Model of the per-package loop of `package_build` (packaging.rs lines 142-161)
followed by the success summary (lines 162-170): each iteration emits the
progress indicators, remounts, refreshes the repository, runs the OS update
(nonzero exit: log an error and return that status), runs the one-package build
(nonzero exit: log an error and return that status), then rolls the container
back; after the last package the summary is printed and 0 returned. -/
def build_loop (sys : Sys) (inst root : String) (total : Nat) :
    Nat → List String → Except String Int × List Event
  | _, [] => (.ok 0, [Event.summary total])
  | index, package :: rest =>
    let ev0 := [Event.termTitle (index + 1) total package,
      Event.infoBuilding (index + 1) total package,
      Event.mountFs inst, Event.infoRefreshRepo, Event.initRepo root inst]
    let us := sys.exec inst updateCmd
    if us ≠ 0 then
      (.ok us, ev0 ++ [Event.runCmd inst updateCmd us, Event.errorUpdateFailed])
    else
      let bs := sys.exec inst (buildOneCmd package)
      if bs ≠ 0 then
        (.ok bs, ev0 ++ [Event.runCmd inst updateCmd us,
          Event.runCmd inst (buildOneCmd package) bs, Event.errorBuildFailed bs])
      else
        let (r, evs) := build_loop sys inst root total (index + 1) rest
        (r, ev0 ++ [Event.runCmd inst updateCmd us,
          Event.runCmd inst (buildOneCmd package) bs,
          Event.rollbackContainer inst] ++ evs)

/-- Model of `package_build` after the offline block (packaging.rs lines
127-170): mount and rollback once, then either one whole-list build invocation
(remote-repo mode) or the expansion followed by the per-package loop
(local-repo mode). -/
def package_build_post (sys : Sys) (conf : Config) (inst : String)
    (packages : List String) : Except String Int × List Event :=
  let ev0 := [Event.mountFs inst, Event.rollbackContainer inst]
  if ¬ conf.local_repo then
    let status := sys.exec inst (buildAllCmd packages)
    (.ok status, ev0 ++ [Event.runCmd inst (buildAllCmd packages) status])
  else
    let root := sys.current_dir ++ "/" ++ sys.output_dir conf.sep_mount
    let (expanded, exEvs) := expand_package_list_ev sys.groups packages
    let (r, evs) := build_loop sys inst root expanded.length 0 expanded
    (r, ev0 ++ exEvs ++ evs)

/-- Model of `package_build` (packaging.rs lines 108-171): configuration must
load; when offline is requested by flag or by the `CIEL_OFFLINE` environment
variable, run `package_fetch` over the raw token list (its `Err` propagates, its
`Ok` status is discarded) and set `CIEL_OFFLINE=ON`; then continue with
`package_build_post`. Returns the result, the event trace, and the possibly
updated environment state. -/
def package_build (sys : Sys) (inst : String) (packages : List String)
    (offline : Bool) : Except String Int × List Event × Sys :=
  match sys.config with
  | none => (.error "Please configure this workspace first!", [], sys)
  | some conf =>
    if offline || sys.ciel_offline then
      match package_fetch sys inst packages with
      | (.error e, evs) => (.error e, Event.infoOffline1 :: evs, sys)
      | (.ok _, evs) =>
        let sys' := { sys with ciel_offline := true }
        let (r, evs') := package_build_post sys' conf inst packages
        (r, Event.infoOffline1 :: evs ++
          Event.setEnvOffline :: Event.infoOffline2 :: evs', sys')
    else
      let (r, evs') := package_build_post sys conf inst packages
      (r, evs', sys)

/-- A directory entry as `WalkDir` yields it: its file name and whether it is a
directory. -/
structure DirEntry where
  name : String
  isDir : Bool
deriving DecidableEq, Repr

/-- Model of `cleanup_outputs` (packaging.rs lines 174-186). The walk of the
current directory at `max_depth(1)` is given as a list of entries (the root
entry `.` first, then the top-level entries), each possibly an enumeration
error; `rm` is the outcome of `remove_dir_all` on a name. An enumeration error
or a removal error propagates immediately; otherwise every directory entry whose
name starts with `OUTPUT-` is removed. Returns the outcome and the list of
removed names in order. -/
def cleanup_outputs (walk : List (Except Unit DirEntry))
    (rm : String → Except Unit Unit) : Except Unit Unit × List String :=
  match walk with
  | [] => (.ok (), [])
  | .error e :: _ => (.error e, [])
  | .ok ent :: rest =>
    if ent.isDir && str_starts_with ent.name "OUTPUT-" then
      match rm ent.name with
      | .error e => (.error e, [])
      | .ok () =>
        let (r, removed) := cleanup_outputs rest rm
        (r, ent.name :: removed)
    else
      cleanup_outputs rest rm

/-! Concrete worlds used by witnesses and counterexamples. -/

/-- A tree holding one group file `groups/g` with members `b` and `c`. -/
def fsG : FS := fun p => if p = "./TREE/groups/g" then some ["b", "c"] else none

/-- A tree where every file access fails. -/
def fsFail : FS := fun _ => none

/-- A tree holding one file `f` exercising the comment and trimming quirks. -/
def fsLines : FS := fun p =>
  if p = "./TREE/f" then some ["#comment", "  #comment", "", "  ", "pkg"] else none

/-- A tree whose group file `groups/g` references itself. -/
def fsSelf : FS := fun p => if p = "./TREE/groups/g" then some ["groups/g"] else none

/-- A local-repo configuration. -/
def confL : Config := { local_sources := true, local_repo := true, sep_mount := false }

/-- A remote-repo configuration. -/
def confR : Config := { local_sources := true, local_repo := false, sep_mount := false }

/-- A world where only the build of `p2` fails (status 7). -/
def sysA : Sys :=
  { config := some confL, ciel_offline := false,
    exec := fun _ cmd => if cmd = buildOneCmd "p2" then 7 else 0,
    output_dir := fun _ => "OUTPUT-main", current_dir := "/w",
    groups := fun _ => none }

/-- A world where the OS-update script fails (status 9). -/
def sysB : Sys :=
  { config := some confL, ciel_offline := false,
    exec := fun _ cmd => if cmd = updateCmd then 9 else 0,
    output_dir := fun _ => "OUTPUT-main", current_dir := "/w",
    groups := fun _ => none }

/-- A remote-repo world where the fetch invocation exits with status 5 and
everything else succeeds. -/
def sysC6 : Sys :=
  { config := some confR, ciel_offline := false,
    exec := fun _ cmd => if cmd = fetchCmd ["p"] then 5 else 0,
    output_dir := fun _ => "OUTPUT-main", current_dir := "/w",
    groups := fun _ => none }

/-- A world whose configuration cannot be loaded. -/
def sysNoConf : Sys :=
  { config := none, ciel_offline := false,
    exec := fun _ _ => 0,
    output_dir := fun _ => "OUTPUT-main", current_dir := "/w",
    groups := fun _ => none }

/-- A remote-repo world where every command succeeds. -/
def sysC10 : Sys :=
  { config := some confR, ciel_offline := false,
    exec := fun _ _ => 0,
    output_dir := fun _ => "OUTPUT-main", current_dir := "/w",
    groups := fun _ => none }

/-! Helper lemmas about the embedded definitions. -/

/-- Unfolding of `read_package_list` at depth 0: the depth check passes and the
file is consulted, nested references resolving with remaining budget 32. -/
lemma read_package_list_zero (fs : FS) (filename : String) :
    read_package_list fs filename 0 =
      (match fs filename with
       | none => .error .ioError
       | some lines =>
         read_package_list_lines (read_package_list_budget fs 32) lines) := rfl

/-- A token without the group marker is kept unchanged by the expander. -/
lemma expand_ev_cons_lit (fs : FS) (x : String) (rest : List String)
    (hx : str_starts_with x "groups/" = false) :
    expand_package_list_ev fs (x :: rest) =
      (x :: (expand_package_list_ev fs rest).1, (expand_package_list_ev fs rest).2) := by
  simp [expand_package_list_ev, hx]

/-- A group token that resolves is spliced in place, with an info log. -/
lemma expand_ev_cons_ok (fs : FS) (x : String) (rest : List String)
    (hx : str_starts_with x "groups/" = true) (l : List String)
    (hr : read_package_list fs ("./TREE/" ++ x) 0 = .ok l) :
    expand_package_list_ev fs (x :: rest) =
      (l ++ (expand_package_list_ev fs rest).1,
       Event.infoReadGroup l.length x :: (expand_package_list_ev fs rest).2) := by
  simp [expand_package_list_ev, hx, hr]

/-- A group token whose resolution fails contributes nothing but a warning. -/
lemma expand_ev_cons_err (fs : FS) (x : String) (rest : List String)
    (hx : str_starts_with x "groups/" = true) (e : RplError)
    (hr : read_package_list fs ("./TREE/" ++ x) 0 = .error e) :
    expand_package_list_ev fs (x :: rest) =
      ((expand_package_list_ev fs rest).1,
       Event.warnGroup x :: (expand_package_list_ev fs rest).2) := by
  simp [expand_package_list_ev, hx, hr]

/-- The expander is an append homomorphism: tokens are processed independently
in order, each contribution spliced at its token's position. -/
lemma expand_ev_append (fs : FS) (xs ys : List String) :
    expand_package_list_ev fs (xs ++ ys) =
      ((expand_package_list_ev fs xs).1 ++ (expand_package_list_ev fs ys).1,
       (expand_package_list_ev fs xs).2 ++ (expand_package_list_ev fs ys).2) := by
  induction xs with
  | nil => simp [expand_package_list_ev]
  | cons x xs ih =>
    cases hx : str_starts_with x "groups/" with
    | false =>
      rw [List.cons_append, expand_ev_cons_lit fs x (xs ++ ys) hx,
        expand_ev_cons_lit fs x xs hx, ih]
      simp
    | true =>
      cases hr : read_package_list fs ("./TREE/" ++ x) 0 with
      | ok l =>
        rw [List.cons_append, expand_ev_cons_ok fs x (xs ++ ys) hx l hr,
          expand_ev_cons_ok fs x xs hx l hr, ih]
        simp
      | error e =>
        rw [List.cons_append, expand_ev_cons_err fs x (xs ++ ys) hx e hr,
          expand_ev_cons_err fs x xs hx e hr, ih]
        simp

/-- In a tree whose group file `groups/g` references itself, resolution fails
with the depth-exceeded error at every remaining budget. -/
lemma read_budget_self_loop (fs : FS) (h : fs "./TREE/groups/g" = some ["groups/g"]) :
    ∀ b, read_package_list_budget fs b "./TREE/groups/g" = .error .depthExceeded := by
  intro b
  induction b with
  | zero => rfl
  | succ b ih =>
    rw [read_package_list_budget, h]
    show (match read_package_list_budget fs b "./TREE/groups/g" with
      | .error e => .error e
      | .ok nested => Except.ok (nested ++ [])) = Except.error RplError.depthExceeded
    rw [ih]

/-! Claim theorems. -/

/-- C2: `expand_package_list` preserves input order, splicing each group's
resolved tokens in place at the group reference's position, with no
deduplication: expansion distributes over append, a literal token maps to
itself, a resolvable group reference maps to its resolved list, and in a tree
where group `g` holds `b` and `c`, `expand(["a", "groups/g"])` is
`["a", "b", "c"]` while expanding the same reference twice repeats its
contents. -/
theorem c2_expand_order_splice_no_dedup :
    (∀ (fs : FS) (xs ys : List String),
      expand_package_list fs (xs ++ ys) =
        expand_package_list fs xs ++ expand_package_list fs ys) ∧
    (∀ (fs : FS) (p : String), str_starts_with p "groups/" = false →
      expand_package_list fs [p] = [p]) ∧
    (∀ (fs : FS) (p : String) (l : List String), str_starts_with p "groups/" = true →
      read_package_list fs ("./TREE/" ++ p) 0 = .ok l →
      expand_package_list fs [p] = l) ∧
    (∀ fs : FS, fs "./TREE/groups/g" = some ["b", "c"] →
      expand_package_list fs ["a", "groups/g"] = ["a", "b", "c"] ∧
      expand_package_list fs ["groups/g", "groups/g"] = ["b", "c", "b", "c"]) := by
  refine ⟨?_, ?_, ?_, ?_⟩
  · intro fs xs ys
    simp [expand_package_list, expand_ev_append]
  · intro fs p hp
    simp [expand_package_list, expand_package_list_ev, hp]
  · intro fs p l hp hr
    simp [expand_package_list, expand_package_list_ev, hp, hr]
  · intro fs h
    have hg : read_package_list fs ("./TREE/" ++ "groups/g") 0 = .ok ["b", "c"] := by
      have h' : fs ("./TREE/" ++ "groups/g") = some ["b", "c"] := h
      rw [read_package_list_zero, h']
      rfl
    constructor
    · rw [expand_package_list, expand_ev_cons_lit fs "a" ["groups/g"] rfl,
        expand_ev_cons_ok fs "groups/g" [] rfl _ hg]
      simp [expand_package_list_ev]
    · rw [expand_package_list, expand_ev_cons_ok fs "groups/g" ["groups/g"] rfl _ hg,
        expand_ev_cons_ok fs "groups/g" [] rfl _ hg]
      simp [expand_package_list_ev]

/-- Witness for C2 at the concrete tree `fsG`. -/
theorem c2_witness :
    expand_package_list fsG ["a", "groups/g"] = ["a", "b", "c"] ∧
    expand_package_list fsG ["groups/g", "groups/g"] = ["b", "c", "b", "c"] :=
  c2_expand_order_splice_no_dedup.2.2.2 fsG rfl

/-- C3: a failing group reference is recovered locally by the expander — the
warning is logged, the token contributes no output, and all subsequent tokens
are still processed; `expand_package_list` is total, so a group-resolution
failure can never abort the expansion. -/
theorem c3_group_failure_skipped :
    ∀ (fs : FS) (tok : String) (rest : List String) (e : RplError),
      str_starts_with tok "groups/" = true →
      read_package_list fs ("./TREE/" ++ tok) 0 = .error e →
      expand_package_list fs (tok :: rest) = expand_package_list fs rest ∧
      expand_package_list_ev fs (tok :: rest) =
        ((expand_package_list_ev fs rest).1,
         Event.warnGroup tok :: (expand_package_list_ev fs rest).2) := by
  intro fs tok rest e hx hr
  refine ⟨?_, expand_ev_cons_err fs tok rest hx e hr⟩
  simp [expand_package_list, expand_ev_cons_err fs tok rest hx e hr]

/-- Witness for C3: in a tree where every file access fails, the failing group
reference is dropped with a warning and the next token is still processed. -/
theorem c3_witness :
    expand_package_list fsFail ["groups/x", "a"] = expand_package_list fsFail ["a"] ∧
    expand_package_list_ev fsFail ["groups/x", "a"] =
      ((expand_package_list_ev fsFail ["a"]).1,
       Event.warnGroup "groups/x" :: (expand_package_list_ev fsFail ["a"]).2) :=
  c3_group_failure_skipped fsFail "groups/x" ["a"] .ioError rfl rfl

/-- C4: a line is skipped as a comment iff its raw, untrimmed first character is
`#`; every other line is trimmed and, when it lacks the `groups/` marker, kept
as a literal token — including whitespace-only and empty lines, which yield the
empty-string token. Concretely, `"  #comment"` yields the literal token
`"#comment"` while `"#comment"` is skipped. -/
theorem c4_line_classification :
    (∀ (resolve : String → Except RplError (List String)) (line : String)
        (rest : List String), str_starts_with line "#" = true →
      read_package_list_lines resolve (line :: rest) =
        read_package_list_lines resolve rest) ∧
    (∀ (resolve : String → Except RplError (List String)) (line : String)
        (rest : List String), str_starts_with line "#" = false →
      str_starts_with (str_trim line) "groups/" = false →
      read_package_list_lines resolve (line :: rest) =
        (match read_package_list_lines resolve rest with
         | .error e => .error e
         | .ok more => .ok (str_trim line :: more))) ∧
    (∀ (fs : FS) (file : String),
      fs file = some ["#comment", "  #comment", "", "  ", "pkg"] →
      read_package_list fs file 0 = .ok ["#comment", "", "", "pkg"]) := by
  refine ⟨?_, ?_, ?_⟩
  · intro resolve line rest h
    simp [read_package_list_lines, h]
  · intro resolve line rest h1 h2
    simp [read_package_list_lines, h1, h2]
  · intro fs file h
    rw [read_package_list_zero, h]
    rfl

/-- Witness for C4: a comment line is skipped, a non-comment line is trimmed to
a literal token, and the concrete file exercises both together with the
empty-token quirk. -/
theorem c4_witness :
    read_package_list_lines (fun _ => Except.ok []) ["#comment", "pkg"] =
      read_package_list_lines (fun _ => Except.ok []) ["pkg"] ∧
    read_package_list_lines (fun _ => Except.ok []) ["  a "] = .ok ["a"] ∧
    read_package_list fsLines "./TREE/f" 0 = .ok ["#comment", "", "", "pkg"] :=
  ⟨c4_line_classification.1 (fun _ => Except.ok []) "#comment" ["pkg"] rfl,
   c4_line_classification.2.1 (fun _ => Except.ok []) "  a " [] rfl rfl,
   c4_line_classification.2.2 fsLines "./TREE/f" rfl⟩

/-- C5: at depth > 32 `read_package_list` fails with the depth-exceeded error
regardless of the tree (in particular before any file access); at depth ≤ 32
the depth check passes and the file is consulted; consequently a
self-referencing group fails deterministically with the depth-exceeded error at
every depth, whatever the files contain. -/
theorem c5_depth_cap :
    (∀ (fs : FS) (file : String) (depth : Nat), 32 < depth →
      read_package_list fs file depth = .error .depthExceeded) ∧
    (∀ (fs : FS) (file : String) (depth : Nat), depth ≤ 32 → fs file = none →
      read_package_list fs file depth = .error .ioError) ∧
    (∀ (fs : FS) (file : String) (depth : Nat) (lines : List String), depth ≤ 32 →
      fs file = some lines →
      read_package_list fs file depth =
        read_package_list_lines (read_package_list_budget fs (32 - depth)) lines) ∧
    (∀ fs : FS, fs "./TREE/groups/g" = some ["groups/g"] →
      ∀ depth, read_package_list fs "./TREE/groups/g" depth = .error .depthExceeded) := by
  refine ⟨?_, ?_, ?_, ?_⟩
  · intro fs file depth h
    have h0 : 33 - depth = 0 := by omega
    show read_package_list_budget fs (33 - depth) file = _
    rw [h0]
    rfl
  · intro fs file depth h hfs
    have h1 : 33 - depth = (32 - depth) + 1 := by omega
    show read_package_list_budget fs (33 - depth) file = _
    rw [h1, read_package_list_budget, hfs]
  · intro fs file depth lines h hfs
    have h1 : 33 - depth = (32 - depth) + 1 := by omega
    show read_package_list_budget fs (33 - depth) file = _
    rw [h1, read_package_list_budget, hfs]
  · intro fs h depth
    show read_package_list_budget fs (33 - depth) "./TREE/groups/g" = _
    exact read_budget_self_loop fs h (33 - depth)

/-- Witness for C5 at concrete trees and depths, including the self-referencing
group `fsSelf`. -/
theorem c5_witness :
    read_package_list fsFail "x" 33 = .error .depthExceeded ∧
    read_package_list fsFail "x" 0 = .error .ioError ∧
    read_package_list fsLines "./TREE/f" 7 =
      read_package_list_lines (read_package_list_budget fsLines 25)
        ["#comment", "  #comment", "", "  ", "pkg"] ∧
    read_package_list fsSelf "./TREE/groups/g" 0 = .error .depthExceeded :=
  ⟨c5_depth_cap.1 fsFail "x" 33 (by decide),
   c5_depth_cap.2.1 fsFail "x" 0 (by decide) rfl,
   c5_depth_cap.2.2.1 fsLines "./TREE/f" 7 _ (by decide) rfl,
   c5_depth_cap.2.2.2 fsSelf rfl 0⟩

/-- Unfolding of `package_build` on the offline path: the fetch pass runs first
over the raw token list, its `Ok` exit status is discarded, the environment
toggle is set, and the run continues with `package_build_post`, whose result
does not depend on the fetch status. -/
lemma package_build_offline_unfold (sys : Sys) (conf : Config) (inst : String)
    (packages : List String) (offline : Bool) (h : sys.config = some conf)
    (hoff : offline = true ∨ sys.ciel_offline = true) :
    package_build sys inst packages offline =
      ((package_build_post { sys with ciel_offline := true } conf inst packages).1,
       Event.infoOffline1 ::
         ((if ¬ conf.local_sources then [Event.warnFetchNoLocalSources] else []) ++
          [Event.mountFs inst, Event.rollbackContainer inst,
           Event.runCmd inst (fetchCmd packages) (sys.exec inst (fetchCmd packages))]) ++
         Event.setEnvOffline :: Event.infoOffline2 ::
           (package_build_post { sys with ciel_offline := true } conf inst packages).2,
       { sys with ciel_offline := true }) := by
  have hcond : (offline || sys.ciel_offline) = true := by
    rcases hoff with h1 | h1 <;> simp [h1]
  simp [package_build, package_fetch, h, hcond]

/-- C1 (local-repo mode, abort on first failure): with `["p1", "p2", "p3"]`
expanded as given, if `p2`'s build invocation exits with nonzero status `b2`
(everything earlier succeeding), the run returns `Ok b2` with the exact trace
ending at the build-failure log — so `p3` is never attempted, no success summary
is emitted, and no rollback follows the failing invocation; and if the OS-update
script exits with nonzero status `u` on the first package, the run returns
`Ok u` immediately with the trace ending at the update-failure log, the only
rollback being the one before the loop. -/
theorem c1_local_repo_abort_on_first_failure :
    (∀ (sys : Sys) (conf : Config) (inst : String) (b2 : Int),
      sys.config = some conf → conf.local_repo = true → sys.ciel_offline = false →
      sys.exec inst updateCmd = 0 → sys.exec inst (buildOneCmd "p1") = 0 →
      sys.exec inst (buildOneCmd "p2") = b2 → b2 ≠ 0 →
      package_build sys inst ["p1", "p2", "p3"] false =
        (.ok b2,
         [Event.mountFs inst, Event.rollbackContainer inst,
          Event.termTitle 1 3 "p1", Event.infoBuilding 1 3 "p1", Event.mountFs inst,
          Event.infoRefreshRepo,
          Event.initRepo (sys.current_dir ++ "/" ++ sys.output_dir conf.sep_mount) inst,
          Event.runCmd inst updateCmd 0, Event.runCmd inst (buildOneCmd "p1") 0,
          Event.rollbackContainer inst,
          Event.termTitle 2 3 "p2", Event.infoBuilding 2 3 "p2", Event.mountFs inst,
          Event.infoRefreshRepo,
          Event.initRepo (sys.current_dir ++ "/" ++ sys.output_dir conf.sep_mount) inst,
          Event.runCmd inst updateCmd 0, Event.runCmd inst (buildOneCmd "p2") b2,
          Event.errorBuildFailed b2],
         sys) ∧
      Event.summary 3 ∉ (package_build sys inst ["p1", "p2", "p3"] false).2.1 ∧
      Event.termTitle 3 3 "p3" ∉ (package_build sys inst ["p1", "p2", "p3"] false).2.1) ∧
    (∀ (sys : Sys) (conf : Config) (inst : String) (u : Int),
      sys.config = some conf → conf.local_repo = true → sys.ciel_offline = false →
      sys.exec inst updateCmd = u → u ≠ 0 →
      package_build sys inst ["p1", "p2", "p3"] false =
        (.ok u,
         [Event.mountFs inst, Event.rollbackContainer inst,
          Event.termTitle 1 3 "p1", Event.infoBuilding 1 3 "p1", Event.mountFs inst,
          Event.infoRefreshRepo,
          Event.initRepo (sys.current_dir ++ "/" ++ sys.output_dir conf.sep_mount) inst,
          Event.runCmd inst updateCmd u, Event.errorUpdateFailed],
         sys) ∧
      Event.summary 3 ∉ (package_build sys inst ["p1", "p2", "p3"] false).2.1 ∧
      Event.rollbackContainer inst ∉
        ((package_build sys inst ["p1", "p2", "p3"] false).2.1.drop 2)) := by
  constructor
  · intro sys conf inst b2 h hlr hco hu hb1 hb2 hb2ne
    have hexp : expand_package_list_ev sys.groups ["p1", "p2", "p3"] =
        (["p1", "p2", "p3"], []) := rfl
    have hmain : package_build sys inst ["p1", "p2", "p3"] false =
        (.ok b2,
         [Event.mountFs inst, Event.rollbackContainer inst,
          Event.termTitle 1 3 "p1", Event.infoBuilding 1 3 "p1", Event.mountFs inst,
          Event.infoRefreshRepo,
          Event.initRepo (sys.current_dir ++ "/" ++ sys.output_dir conf.sep_mount) inst,
          Event.runCmd inst updateCmd 0, Event.runCmd inst (buildOneCmd "p1") 0,
          Event.rollbackContainer inst,
          Event.termTitle 2 3 "p2", Event.infoBuilding 2 3 "p2", Event.mountFs inst,
          Event.infoRefreshRepo,
          Event.initRepo (sys.current_dir ++ "/" ++ sys.output_dir conf.sep_mount) inst,
          Event.runCmd inst updateCmd 0, Event.runCmd inst (buildOneCmd "p2") b2,
          Event.errorBuildFailed b2],
         sys) := by
      simp [package_build, package_build_post, build_loop, h, hlr, hco, hexp, hu,
        hb1, hb2, hb2ne]
    refine ⟨hmain, ?_, ?_⟩
    · rw [hmain]
      simp
    · rw [hmain]
      simp
  · intro sys conf inst u h hlr hco hu hune
    have hexp : expand_package_list_ev sys.groups ["p1", "p2", "p3"] =
        (["p1", "p2", "p3"], []) := rfl
    have hmain : package_build sys inst ["p1", "p2", "p3"] false =
        (.ok u,
         [Event.mountFs inst, Event.rollbackContainer inst,
          Event.termTitle 1 3 "p1", Event.infoBuilding 1 3 "p1", Event.mountFs inst,
          Event.infoRefreshRepo,
          Event.initRepo (sys.current_dir ++ "/" ++ sys.output_dir conf.sep_mount) inst,
          Event.runCmd inst updateCmd u, Event.errorUpdateFailed],
         sys) := by
      simp [package_build, package_build_post, build_loop, h, hlr, hco, hexp, hu, hune]
    refine ⟨hmain, ?_, ?_⟩
    · rw [hmain]
      simp
    · rw [hmain]
      simp

/-- Witness for C1 at the concrete worlds `sysA` (build of `p2` fails with
status 7) and `sysB` (the OS-update script fails with status 9). -/
theorem c1_witness :
    package_build sysA "i" ["p1", "p2", "p3"] false =
      (.ok 7,
       [Event.mountFs "i", Event.rollbackContainer "i",
        Event.termTitle 1 3 "p1", Event.infoBuilding 1 3 "p1", Event.mountFs "i",
        Event.infoRefreshRepo, Event.initRepo "/w/OUTPUT-main" "i",
        Event.runCmd "i" updateCmd 0, Event.runCmd "i" (buildOneCmd "p1") 0,
        Event.rollbackContainer "i",
        Event.termTitle 2 3 "p2", Event.infoBuilding 2 3 "p2", Event.mountFs "i",
        Event.infoRefreshRepo, Event.initRepo "/w/OUTPUT-main" "i",
        Event.runCmd "i" updateCmd 0, Event.runCmd "i" (buildOneCmd "p2") 7,
        Event.errorBuildFailed 7],
       sysA) ∧
    package_build sysB "i" ["p1", "p2", "p3"] false =
      (.ok 9,
       [Event.mountFs "i", Event.rollbackContainer "i",
        Event.termTitle 1 3 "p1", Event.infoBuilding 1 3 "p1", Event.mountFs "i",
        Event.infoRefreshRepo, Event.initRepo "/w/OUTPUT-main" "i",
        Event.runCmd "i" updateCmd 9, Event.errorUpdateFailed],
       sysB) :=
  ⟨(c1_local_repo_abort_on_first_failure.1 sysA confL "i" 7 rfl rfl rfl (by decide)
      (by decide) (by decide) (by decide)).1,
   (c1_local_repo_abort_on_first_failure.2 sysB confL "i" 9 rfl rfl rfl (by decide)
      (by decide)).1⟩

/-- C6 counterexample: in `sysC6` the offline pre-fetch exits with status 5, yet
the run is not aborted with that status — the build invocation still runs and
the run returns `Ok 0`, so a nonzero fetch exit status is not fatal. -/
theorem c6_counterexample :
    (package_build sysC6 "i" ["p"] true).1 = .ok 0 ∧
    Event.runCmd "i" (fetchCmd ["p"]) 5 ∈ (package_build sysC6 "i" ["p"] true).2.1 ∧
    Event.runCmd "i" (buildAllCmd ["p"]) 0 ∈ (package_build sysC6 "i" ["p"] true).2.1 ∧
    (package_build sysC6 "i" ["p"] true).1 ≠ .ok 5 := by
  refine ⟨by decide, by decide, by decide, by decide⟩

/-- C6 as amended: when offline mode is requested by flag or environment
override, `package_build` first runs the full fetch pass over the raw,
unexpanded token set before building, but the fetch invocation's exit status is
discarded rather than fatal: the run's result is that of `package_build_post`,
which does not receive the fetch status (only an `Err` from `package_fetch`
would propagate). -/
theorem c6_offline_prefetch_status_discarded :
    ∀ (sys : Sys) (conf : Config) (inst : String) (packages : List String)
      (offline : Bool),
      sys.config = some conf → (offline = true ∨ sys.ciel_offline = true) →
      package_build sys inst packages offline =
        ((package_build_post { sys with ciel_offline := true } conf inst packages).1,
         Event.infoOffline1 ::
           ((if ¬ conf.local_sources then [Event.warnFetchNoLocalSources] else []) ++
            [Event.mountFs inst, Event.rollbackContainer inst,
             Event.runCmd inst (fetchCmd packages) (sys.exec inst (fetchCmd packages))]) ++
           Event.setEnvOffline :: Event.infoOffline2 ::
             (package_build_post { sys with ciel_offline := true } conf inst packages).2,
         { sys with ciel_offline := true }) ∧
      package_fetch sys inst packages =
        (.ok (sys.exec inst (fetchCmd packages)),
         (if ¬ conf.local_sources then [Event.warnFetchNoLocalSources] else []) ++
           [Event.mountFs inst, Event.rollbackContainer inst,
            Event.runCmd inst (fetchCmd packages) (sys.exec inst (fetchCmd packages))]) := by
  intro sys conf inst packages offline h hoff
  exact ⟨package_build_offline_unfold sys conf inst packages offline h hoff,
    by simp [package_fetch, h]⟩

/-- Witness for the amended C6 at the concrete world `sysC6`. -/
theorem c6_witness :
    package_build sysC6 "i" ["p"] true =
      (.ok 0,
       [Event.infoOffline1, Event.mountFs "i", Event.rollbackContainer "i",
        Event.runCmd "i" (fetchCmd ["p"]) 5, Event.setEnvOffline, Event.infoOffline2,
        Event.mountFs "i", Event.rollbackContainer "i",
        Event.runCmd "i" (buildAllCmd ["p"]) 0],
       { sysC6 with ciel_offline := true }) ∧
    package_fetch sysC6 "i" ["p"] =
      (.ok 5, [Event.mountFs "i", Event.rollbackContainer "i",
               Event.runCmd "i" (fetchCmd ["p"]) 5]) :=
  c6_offline_prefetch_status_discarded sysC6 confR "i" ["p"] true rfl (Or.inl rfl)

/-- C7 counterexample: `cleanup_outputs` is a public entry point of the core
that never consults the workspace configuration — it performs its removal side
effect and succeeds with no configuration in existence, so unavailable
configuration is not fatal at every entry point. -/
theorem c7_counterexample :
    cleanup_outputs [.ok ⟨".", true⟩, .ok ⟨"OUTPUT-foo", true⟩] (fun _ => .ok ()) =
      (.ok (), ["OUTPUT-foo"]) := by
  decide

/-- C7 as amended: unavailable configuration is fatal, before any side effect,
at the two entry points that load it — `package_fetch` and `package_build` both
fail with the "configure this workspace" error and an empty event trace —
while `cleanup_outputs` takes no configuration at all and sweeps regardless. -/
theorem c7_config_missing_fatal_for_fetch_and_build :
    ∀ (sys : Sys) (inst : String) (packages : List String) (offline : Bool),
      sys.config = none →
      package_fetch sys inst packages =
        (.error "Please configure this workspace first!", []) ∧
      package_build sys inst packages offline =
        (.error "Please configure this workspace first!", [], sys) := by
  intro sys inst packages offline h
  constructor
  · simp [package_fetch, h]
  · simp [package_build, h]

/-- Witness for the amended C7 at the concrete world `sysNoConf`. -/
theorem c7_witness :
    package_fetch sysNoConf "i" ["p"] =
      (.error "Please configure this workspace first!", []) ∧
    package_build sysNoConf "i" ["p"] false =
      (.error "Please configure this workspace first!", [], sysNoConf) :=
  c7_config_missing_fatal_for_fetch_and_build sysNoConf "i" ["p"] false rfl

/-- C8: for every nonnegative duration, `format_duration` renders the
zero-padded `HH:MM:SS` fields with seconds = total mod 60, minutes =
(total / 60) mod 60, and hours = total / 3600 unbounded; concretely 3661 s is
`"01:01:01"`, 0 s is `"00:00:00"`, and 360000 s has hours field `"100"` with no
truncation. -/
theorem c8_format_duration_fields :
    (∀ n : Nat, format_duration (n : Int) =
      pad2 ((n / 3600 : Nat) : Int) ++ ":" ++ pad2 (((n / 60) % 60 : Nat) : Int) ++ ":" ++
        pad2 ((n % 60 : Nat) : Int)) ∧
    format_duration 3661 = "01:01:01" ∧
    format_duration 0 = "00:00:00" ∧
    format_duration 360000 = "100:00:00" :=
  ⟨fun _ => rfl, by decide, by decide, by decide⟩

/-- C9: on an error-free walk, `cleanup_outputs` removes exactly the directory
entries whose name starts with the case-sensitive `OUTPUT-` (non-directories
and differently-cased names untouched, and only walked — top-level — entries
are ever candidates); an enumeration error aborts the sweep at that point, and
a removal error aborts it immediately. -/
theorem c9_cleanup_sweep :
    (∀ (entries : List DirEntry) (rm : String → Except Unit Unit),
      (∀ s, rm s = .ok ()) →
      cleanup_outputs (entries.map .ok) rm =
        (.ok (),
         (entries.filter (fun e => e.isDir && str_starts_with e.name "OUTPUT-")).map
           DirEntry.name)) ∧
    (∀ (pre : List DirEntry) (rest : List (Except Unit DirEntry))
        (rm : String → Except Unit Unit),
      (∀ s, rm s = .ok ()) →
      cleanup_outputs (pre.map .ok ++ .error () :: rest) rm =
        (.error (),
         (pre.filter (fun e => e.isDir && str_starts_with e.name "OUTPUT-")).map
           DirEntry.name)) ∧
    (∀ (ent : DirEntry) (rest : List (Except Unit DirEntry))
        (rm : String → Except Unit Unit),
      ent.isDir = true → str_starts_with ent.name "OUTPUT-" = true →
      rm ent.name = .error () →
      cleanup_outputs (.ok ent :: rest) rm = (.error (), [])) := by
  refine ⟨?_, ?_, ?_⟩
  · intro entries rm hrm
    induction entries with
    | nil => rfl
    | cons e rest ih =>
      cases hc : (e.isDir && str_starts_with e.name "OUTPUT-") with
      | true => simp [cleanup_outputs, hc, hrm, ih, List.filter]
      | false => simp [cleanup_outputs, hc, ih, List.filter]
  · intro pre rest rm hrm
    induction pre with
    | nil => rfl
    | cons e pre ih =>
      cases hc : (e.isDir && str_starts_with e.name "OUTPUT-") with
      | true => simp [cleanup_outputs, hc, hrm, ih, List.filter]
      | false => simp [cleanup_outputs, hc, ih, List.filter]
  · intro ent rest rm h1 h2 h3
    simp [cleanup_outputs, h1, h2, h3]

/-- Witness for C9: `OUTPUT-foo` (a directory) is removed; `output-foo` (wrong
case) and the file `OUTPUT-x` are untouched; the root entry `.` is untouched. -/
theorem c9_witness :
    cleanup_outputs
      ([⟨".", true⟩, ⟨"OUTPUT-foo", true⟩, ⟨"output-foo", true⟩,
        ⟨"OUTPUT-x", false⟩].map .ok)
      (fun _ => .ok ()) = (.ok (), ["OUTPUT-foo"]) :=
  c9_cleanup_sweep.1
    [⟨".", true⟩, ⟨"OUTPUT-foo", true⟩, ⟨"output-foo", true⟩, ⟨"OUTPUT-x", false⟩]
    (fun _ => .ok ()) (fun _ => rfl)

/-- C10: once `package_build` takes the offline path (offline flag set, or
`CIEL_OFFLINE` already present), it leaves the environment with `CIEL_OFFLINE`
set; from then on every `package_build` call in that environment behaves exactly
as if called with `offline = true` — including running the pre-fetch — even when
called with `offline = false`, so offline behavior is not a pure function of the
call's arguments. -/
theorem c10_offline_env_sticky :
    ∀ (sys : Sys) (conf : Config) (inst : String) (packages : List String)
      (offline : Bool),
      sys.config = some conf → (offline = true ∨ sys.ciel_offline = true) →
      (package_build sys inst packages offline).2.2 =
        { sys with ciel_offline := true } ∧
      (∀ (packages' : List String) (offline' : Bool),
        package_build { sys with ciel_offline := true } inst packages' offline' =
          package_build { sys with ciel_offline := true } inst packages' true) ∧
      (∀ (packages' : List String) (offline' : Bool),
        Event.runCmd inst (fetchCmd packages') (sys.exec inst (fetchCmd packages')) ∈
          (package_build { sys with ciel_offline := true } inst packages' offline').2.1) := by
  intro sys conf inst packages offline h hoff
  have h' : ({ sys with ciel_offline := true } : Sys).config = some conf := h
  refine ⟨?_, ?_, ?_⟩
  · rw [package_build_offline_unfold sys conf inst packages offline h hoff]
  · intro packages' offline'
    rw [package_build_offline_unfold { sys with ciel_offline := true } conf inst
        packages' offline' h' (Or.inr rfl),
      package_build_offline_unfold { sys with ciel_offline := true } conf inst
        packages' true h' (Or.inl rfl)]
  · intro packages' offline'
    rw [package_build_offline_unfold { sys with ciel_offline := true } conf inst
        packages' offline' h' (Or.inr rfl)]
    by_cases hls : conf.local_sources <;> simp [hls]

/-- Witness for C10 at the concrete world `sysC10`: after one offline run, a
later run with `offline = false` behaves as an offline run and still performs
the pre-fetch. -/
theorem c10_witness :
    (package_build sysC10 "i" ["p"] true).2.2 = { sysC10 with ciel_offline := true } ∧
    package_build { sysC10 with ciel_offline := true } "i" ["q"] false =
      package_build { sysC10 with ciel_offline := true } "i" ["q"] true ∧
    Event.runCmd "i" (fetchCmd ["q"]) 0 ∈
      (package_build { sysC10 with ciel_offline := true } "i" ["q"] false).2.1 := by
  obtain ⟨h1, h2, h3⟩ :=
    c10_offline_env_sticky sysC10 confR "i" ["p"] true rfl (Or.inl rfl)
  exact ⟨h1, h2 ["q"] false, h3 ["q"] false⟩

end Ciel
